import Mathlib

/-!
Verification of the Tron address-info service (`main.py`, `tron_service.py`,
`models.py`, `database.py`) against its specification.

The embedding models Python exceptions as an explicit error type, the
tenacity-decorated remote calls as a retry combinator over per-attempt
stubs, the `cachetools.TTLCache` as a timestamped entry list, and the two
FastAPI endpoints as pure functions over an explicit environment describing
the outcomes of the external calls (validator, upstream reads, database
commit/refresh).
-/

/-- Python exception classes relevant to the service: `requests` network
errors (`ConnectionError`, `HTTPError`), `ValueError`, and a catch-all for
any other `Exception`. Each carries its `str(e)` message. -/
inductive PyError where
  | connectionError (msg : String)
  | httpError (msg : String)
  | valueError (msg : String)
  | otherError (msg : String)
deriving DecidableEq, Repr

/-- Network-class errors: exactly the `(ConnectionError, HTTPError)` tuple
used both by `retry_if_exception_type` in `tron_service.py` and by the
`except (ConnectionError, HTTPError)` clause in `main.py`. -/
def PyError.isNetwork : PyError → Bool
  | .connectionError _ => true
  | .httpError _ => true
  | .valueError _ => false
  | .otherError _ => false

/-- The `str(e)` message of an exception. -/
def PyError.message : PyError → String
  | .connectionError m => m
  | .httpError m => m
  | .valueError m => m
  | .otherError m => m

deriving instance DecidableEq for Except

/-- Modelled from the spec: `tenacity.wait_exponential(multiplier=1, min=1,
max=10)` (the tenacity library is a third-party dependency, not in the
repository). Per the spec's retry policy, the backoff delay starts at one
time-unit, doubles each retry, and is capped at 10 time-units; `n` is the
1-based number of the attempt that just failed. -/
def waitExponential (n : Nat) : Nat :=
  max 1 (min 10 (2 ^ (n - 1)))

/-- Outcome of running a retried call: the final result, the number of
attempts actually made, and the list of backoff delays slept between
attempts. -/
structure RetryResult (α : Type) where
  result : Except PyError α
  attempts : Nat
  waits : List Nat
deriving DecidableEq, Repr

/-- Modelled from the spec: the `tenacity.retry` decorator with
`stop_after_attempt(3)`, `wait_exponential(multiplier=1, min=1, max=10)` and
`retry_if_exception_type((ConnectionError, HTTPError))`, as applied to
`validate_tron_address` and `get_address_info` in `tron_service.py`.
`f n` is the outcome of the (0-based) `n`-th attempt of the wrapped body;
`fuel` is the number of attempts still allowed, `idx` the next attempt's
0-based index, `ws` the delays slept so far. A non-network error, or
exhaustion of the attempt budget, stops retrying and surfaces the last
error. -/
def retryGo (f : Nat → Except PyError α) : Nat → Nat → List Nat → RetryResult α
  | 0, idx, ws => ⟨.error (.otherError "no attempts allowed"), idx, ws⟩
  | fuel + 1, idx, ws =>
    match f idx with
    | .ok v => ⟨.ok v, idx + 1, ws⟩
    | .error e =>
      if e.isNetwork && fuel != 0 then
        retryGo f fuel (idx + 1) (ws ++ [waitExponential (idx + 1)])
      else
        ⟨.error e, idx + 1, ws⟩

/-- A remote call wrapped in the service's retry policy: at most 3 attempts
(`stop_after_attempt(3)`). -/
def retryCall (f : Nat → Except PyError α) : RetryResult α :=
  retryGo f 3 0 []

/-- The upstream response of `client.get_account_resource`: a JSON object in
which the `NetLimit` and `EnergyLimit` fields may be absent (Python
`resource.get(key, 0)` supplies the default). -/
structure ResourceMap where
  NetLimit : Option Int
  EnergyLimit : Option Int
deriving DecidableEq, Repr

/-- The `{bandwidth, energy, balance}` triple returned by
`get_address_info` and cached/persisted by the handler. -/
structure AccountInfo where
  bandwidth : Int
  energy : Int
  balance : Rat
deriving DecidableEq, Repr

/-- Outcomes of the external calls made by one attempt of
`get_address_info`'s body: the (already retried) `validate_tron_address`
call, `client.get_account_resource`, and `client.get_account_balance`. -/
structure FetchEnv where
  validateRes : Except PyError Bool
  resourceRes : Except PyError ResourceMap
  balanceRes : Except PyError Rat
deriving DecidableEq, Repr

/-- Result of one attempt of `get_address_info`'s body, recording which of
the two upstream read calls were actually issued. -/
structure FetchOutcome where
  result : Except PyError AccountInfo
  resourceCalled : Bool
  balanceCalled : Bool
deriving DecidableEq, Repr

/-- One attempt of the body of `get_address_info` (`tron_service.py`):
re-validate the address, raising `ValueError("Invalid Tron address")` if
invalid; otherwise read account resource and balance (the `except` clause
logs and re-raises, so call failures propagate unchanged), and return
`bandwidth = resource.get('NetLimit', 0)`,
`energy = resource.get('EnergyLimit', 0)` with the balance. -/
def get_address_info_body (env : FetchEnv) : FetchOutcome :=
  match env.validateRes with
  | .error e => ⟨.error e, false, false⟩
  | .ok false => ⟨.error (.valueError "Invalid Tron address"), false, false⟩
  | .ok true =>
    match env.resourceRes with
    | .error e => ⟨.error e, true, false⟩
    | .ok r =>
      match env.balanceRes with
      | .error e => ⟨.error e, true, true⟩
      | .ok b => ⟨.ok ⟨r.NetLimit.getD 0, r.EnergyLimit.getD 0, b⟩, true, true⟩

/-- The retried `get_address_info` call: the body is run under the retry
policy, with `envs n` describing the external-call outcomes seen by the
0-based `n`-th attempt. -/
def get_address_info_retried (envs : Nat → FetchEnv) : RetryResult AccountInfo :=
  retryCall (fun n => (get_address_info_body (envs n)).result)

/-- Modelled from the spec: one entry of the `cachetools.TTLCache` created
in `main.py` as `TTLCache(maxsize=100, ttl=300)` (the cachetools library is
a third-party dependency, not in the repository). An entry remembers its
key, value and insertion time; it is expired once `ttl` time-units have
elapsed since insertion. -/
structure TTLEntry where
  key : String
  value : AccountInfo
  insertedAt : Nat
deriving DecidableEq, Repr

/-- The cache TTL: 300 seconds (5 minutes), from `TTLCache(maxsize=100, ttl=300)`. -/
def cacheTTL : Nat := 300

/-- The cache capacity: 100 entries, from `TTLCache(maxsize=100, ttl=300)`. -/
def cacheMaxsize : Nat := 100

/-- A cache state: entries in insertion order (oldest first). -/
abbrev TTLState : Type := List TTLEntry

/-- Modelled from the spec: the expiry sweep a `TTLCache` performs on every
access, dropping entries whose age has reached the TTL. An entry inserted
at `t` is live at `now` while `now < t + ttl`. -/
def cacheExpire (now : Nat) (c : TTLState) : TTLState :=
  c.filter (fun e => now < e.insertedAt + cacheTTL)

/-- Modelled from the spec: `TTLCache` lookup (`address in cache` /
`cache[address]` in `main.py`): an expired or absent key misses. -/
def cacheGet (now : Nat) (c : TTLState) (k : String) : Option AccountInfo :=
  ((cacheExpire now c).find? (fun e => e.key = k)).map TTLEntry.value

/-- Modelled from the spec: the eviction step of a bounded cache — if the
cache is at capacity, drop the oldest entry (the spec leaves the overflow
policy implementation-defined as long as the size bound holds). -/
def evictIfFull (c : TTLState) : TTLState :=
  if cacheMaxsize ≤ c.length then c.tail else c

/-- Modelled from the spec: `TTLCache` insertion (`cache[address] = info` in
`main.py`): sweep expired entries, replace any previous entry for the key,
evict the oldest entry if the cache is full, then append the fresh entry. -/
def cacheSet (now : Nat) (c : TTLState) (k : String) (v : AccountInfo) : TTLState :=
  evictIfFull ((cacheExpire now c).filter (fun e => e.key ≠ k)) ++ [⟨k, v, now⟩]

/-- A cache operation with the time at which it happens: a lookup (which
triggers the expiry sweep) or an insertion. -/
inductive CacheOp where
  | get (now : Nat) (k : String)
  | set (now : Nat) (k : String) (v : AccountInfo)
deriving Repr

/-- Apply one cache operation to a cache state. -/
def applyCacheOp (c : TTLState) : CacheOp → TTLState
  | .get now _ => cacheExpire now c
  | .set now k v => cacheSet now c k v

/-- Run a sequence of cache operations starting from the empty cache. -/
def runCacheOps (ops : List CacheOp) : TTLState :=
  ops.foldl applyCacheOp []

/-- One row of the `tron_address_info` table (`models.py`): surrogate `id`
assigned by the store on insert, the queried address, the
bandwidth/energy/balance triple, and the creation timestamp used as the
history sort key. -/
structure TronAddressInfo where
  id : Nat
  address : String
  bandwidth : Int
  energy : Int
  balance : Rat
  timestamp : Nat
deriving DecidableEq, Repr

/-- Newest-first order on records: `a` may precede `b` when `b`'s timestamp
is no greater than `a`'s. -/
def tsDesc (a b : TronAddressInfo) : Prop := b.timestamp ≤ a.timestamp

instance : DecidableRel tsDesc := fun a b => Nat.decLe b.timestamp a.timestamp

/-- Insert a record into a list already sorted newest-first, keeping it
sorted. -/
def insertDesc (x : TronAddressInfo) : List TronAddressInfo → List TronAddressInfo
  | [] => [x]
  | y :: ys => if y.timestamp ≤ x.timestamp then x :: y :: ys else y :: insertDesc x ys

/-- The `ORDER BY timestamp DESC` of the history query in `main.py`,
embedded as an insertion sort by descending timestamp. -/
def sortTsDesc : List TronAddressInfo → List TronAddressInfo
  | [] => []
  | x :: xs => insertDesc x (sortTsDesc xs)

/-- The body of the `GET /recent_requests` response (`main.py`): the full
record count, the echoed page parameters, and the requested page of the
newest-first history. -/
structure RecentResponse where
  total : Nat
  page : Nat
  page_size : Nat
  data : List TronAddressInfo
deriving DecidableEq, Repr

/-- The `GET /recent_requests` handler (`main.py`): `total` counts all rows,
and `data` is the newest-first history after `OFFSET (page-1)*page_size
LIMIT page_size`. -/
def get_recent_requests (records : List TronAddressInfo) (page page_size : Nat) :
    RecentResponse :=
  { total := records.length
    page := page
    page_size := page_size
    data := ((sortTsDesc records).drop ((page - 1) * page_size)).take page_size }

/-- What `POST /address_info` sends back: a 200 body, an `HTTPException`
with a status code and a detail string, or an exception that escapes the
endpoint uncaught (FastAPI then produces a generic 500 response that does
not carry the exception's message). -/
inductive HandlerResponse where
  | ok (address : String) (bandwidth energy : Int) (balance : Rat)
  | httpError (status : Nat) (detail : String)
  | uncaught (e : PyError)
deriving DecidableEq, Repr

/-- The detail string built by the two `except` clauses of
`get_address_info_endpoint` in `main.py`. -/
def exceptionDetail (e : PyError) : String :=
  if e.isNetwork then "Network error: " ++ e.message
  else "Internal server error: " ++ e.message

/-- The environment of one `POST /address_info` request: the address, the
request time, the current cache and table contents, and the outcomes of the
external calls the handler may make — the (already retried)
`validate_tron_address` and `get_address_info` calls and the database
`commit` and `refresh` round trips. -/
structure HandlerEnv where
  address : String
  now : Nat
  cache : TTLState
  db : List TronAddressInfo
  validateRes : Except PyError Bool
  fetchRes : Except PyError AccountInfo
  commitRes : Except PyError Unit
  refreshRes : Except PyError Unit
deriving Repr

/-- Result of one `POST /address_info` request: the response, the cache and
table contents afterwards, and whether `get_address_info` was called. -/
structure HandlerResult where
  resp : HandlerResponse
  cache : TTLState
  db : List TronAddressInfo
  fetchCalled : Bool
deriving Repr

/-- The row inserted by the handler: the store assigns the next surrogate
id, the timestamp is the insert time. -/
def mkRecord (env : HandlerEnv) (info : AccountInfo) : TronAddressInfo :=
  ⟨env.db.length, env.address, info.bandwidth, info.energy, info.balance, env.now⟩

/-- The persist-and-respond tail of the `try` block in
`get_address_info_endpoint`: `db.add`, `await db.commit()` (the row is
durable exactly when the commit succeeds; a failed commit rolls back),
`await db.refresh(db_entry)`, then the 200 body. A failure of either
database round trip is caught by the `except` clauses and mapped through
`exceptionDetail`. -/
def persistAndRespond (env : HandlerEnv) (info : AccountInfo) (cache' : TTLState)
    (fetched : Bool) : HandlerResult :=
  match env.commitRes with
  | .error e => ⟨.httpError 500 (exceptionDetail e), cache', env.db, fetched⟩
  | .ok _ =>
    match env.refreshRes with
    | .error e =>
      ⟨.httpError 500 (exceptionDetail e), cache', env.db ++ [mkRecord env info], fetched⟩
    | .ok _ =>
      ⟨.ok env.address info.bandwidth info.energy info.balance, cache',
        env.db ++ [mkRecord env info], fetched⟩

/-- The `POST /address_info` endpoint (`get_address_info_endpoint` in
`main.py`). The initial `validate_tron_address` call sits before the
`try` block: a `False` return raises `HTTPException(400, "Invalid Tron
address")`, and an exception from it escapes the endpoint uncaught. Inside
the `try` block: on a cache hit the cached triple is used; on a miss
`get_address_info` is called and, on success, its result written into the
cache; then the row is persisted and the 200 body returned. Exceptions
inside the `try` block become a 500 `HTTPException` whose detail is
`"Network error: ..."` for `ConnectionError`/`HTTPError` and
`"Internal server error: ..."` otherwise. -/
def handleLookup (env : HandlerEnv) : HandlerResult :=
  match env.validateRes with
  | .error e => ⟨.uncaught e, env.cache, env.db, false⟩
  | .ok false => ⟨.httpError 400 "Invalid Tron address", env.cache, env.db, false⟩
  | .ok true =>
    match cacheGet env.now env.cache env.address with
    | some info => persistAndRespond env info env.cache false
    | none =>
      match env.fetchRes with
      | .error e => ⟨.httpError 500 (exceptionDetail e), env.cache, env.db, true⟩
      | .ok info =>
        persistAndRespond env info (cacheSet env.now env.cache env.address info) true

/-- Modelled from the spec: FastAPI's validation of the query parameters
declared in `main.py` as `page: int = Query(1, ge=1)` and
`page_size: int = Query(10, ge=1, le=100)` (the FastAPI framework is a
third-party dependency, not in the repository). An omitted parameter takes
its declared default; a supplied value violating its bound is rejected
before the handler body runs. -/
def parseRecentRequestsParams (page? : Option Int) (page_size? : Option Int) :
    Except String (Int × Int) :=
  let page := page?.getD 1
  let page_size := page_size?.getD 10
  if page < 1 then .error "page must be greater than or equal to 1"
  else if page_size < 1 then .error "page_size must be greater than or equal to 1"
  else if 100 < page_size then .error "page_size must be less than or equal to 100"
  else .ok (page, page_size)

/-- The address used by the repository test suite. -/
def sampleAddress : String := "TFjnjGvy8GLP63CDkX2eWQBYHRUzvN619g"

/-- The balance value used by the repository test suite (0.088946 TRX). -/
def sampleBalance : Rat := 88946 / 1000000

/-- The account triple returned by the stubbed upstream in the repository
test suite. -/
def sampleInfo : AccountInfo := ⟨0, 0, sampleBalance⟩

/-- A retried-call stub that fails with a network error on its first two
attempts and then succeeds. -/
def stubTwoFailures : Nat → Except PyError Nat :=
  fun n => if n < 2 then .error (.connectionError "net down") else .ok 7

/-- A retried-call stub that always fails with a network error. -/
def stubAlwaysFails : Nat → Except PyError Nat :=
  fun _ => .error (.connectionError "net down")

/-- A retried-call stub that fails with an application-level error on its
first attempt. -/
def stubNonNetwork : Nat → Except PyError Nat :=
  fun _ => .error (.valueError "bad input")

/-- A request environment in which the validator reports the address
invalid. -/
def envInvalid : HandlerEnv :=
  ⟨"invalid_address", 0, [], [], .ok false, .ok sampleInfo, .ok (), .ok ()⟩

/-- A request environment for a first lookup: empty cache, successful fetch
and persistence. -/
def envMiss : HandlerEnv :=
  ⟨sampleAddress, 100, [], [], .ok true, .ok sampleInfo, .ok (), .ok ()⟩

/-- A second request for the same address 150 time-units later, over the
cache and table left by the first lookup; its fetch stub fails, so a fetch
call during this request could not succeed unnoticed. -/
def envHit : HandlerEnv :=
  ⟨sampleAddress, 250, (handleLookup envMiss).cache, (handleLookup envMiss).db,
    .ok true, .error (.connectionError "must not be called"), .ok (), .ok ()⟩

/-- Three history rows with distinct timestamps, in no particular order. -/
def sampleRecords : List TronAddressInfo :=
  [⟨1, "test_0", 1000, 5000, 100, 40⟩,
   ⟨2, "test_1", 1001, 5001, 101, 60⟩,
   ⟨3, "test_2", 1002, 5002, 102, 50⟩]

/-- A request environment in which the database commit succeeds but the
post-commit refresh round trip fails. -/
def envRefreshFail : HandlerEnv :=
  ⟨sampleAddress, 100, [], [], .ok true, .ok sampleInfo, .ok (),
    .error (.otherError "lost db connection during refresh")⟩

/-- A request environment in which the initial validator call itself fails
with a network error after retry exhaustion. -/
def envValNetErr : HandlerEnv :=
  ⟨sampleAddress, 0, [], [], .error (.connectionError "conn down"),
    .ok sampleInfo, .ok (), .ok ()⟩

/-- A request environment in which the upstream fetch fails with a network
error after retry exhaustion. -/
def envFetchNetErr : HandlerEnv :=
  ⟨sampleAddress, 0, [], [], .ok true, .error (.connectionError "api down"),
    .ok (), .ok ()⟩

/-- Upstream-call outcomes in which both resource limits are unset. -/
def fenvNoLimits : FetchEnv := ⟨.ok true, .ok ⟨none, none⟩, .ok sampleBalance⟩

/-- Per-attempt outcomes for a `get_address_info` call on an address the
validator rejects. -/
def fenvsInvalid : Nat → FetchEnv :=
  fun _ => ⟨.ok false, .ok ⟨some 5, some 6⟩, .ok 1⟩

/-- A sample operation sequence for the cache: one insertion at time 0. -/
def opsSample : List CacheOp := [.set 0 "a" sampleInfo]

/-! Helper lemmas. -/

theorem length_insertDesc (x : TronAddressInfo) (l : List TronAddressInfo) :
    (insertDesc x l).length = l.length + 1 := by
  induction l with
  | nil => rfl
  | cons y ys ih =>
    simp only [insertDesc]
    split <;> simp [ih]

theorem length_sortTsDesc (l : List TronAddressInfo) :
    (sortTsDesc l).length = l.length := by
  induction l with
  | nil => rfl
  | cons x xs ih => simp [sortTsDesc, length_insertDesc, ih]

theorem mem_insertDesc {z x : TronAddressInfo} {l : List TronAddressInfo} :
    z ∈ insertDesc x l ↔ z = x ∨ z ∈ l := by
  induction l with
  | nil => simp [insertDesc]
  | cons y ys ih =>
    simp only [insertDesc]
    split
    · simp only [List.mem_cons]
    · simp only [List.mem_cons, ih]
      tauto

theorem pairwise_insertDesc {x : TronAddressInfo} {l : List TronAddressInfo}
    (h : l.Pairwise tsDesc) : (insertDesc x l).Pairwise tsDesc := by
  induction l with
  | nil => simp [insertDesc]
  | cons y ys ih =>
    rw [List.pairwise_cons] at h
    obtain ⟨hy, hys⟩ := h
    rw [insertDesc]
    by_cases hc : y.timestamp ≤ x.timestamp
    · rw [if_pos hc]
      refine List.Pairwise.cons ?_ (List.Pairwise.cons hy hys)
      intro z hz
      rcases List.mem_cons.mp hz with hz | hz
      · subst hz; exact hc
      · exact le_trans (hy z hz) hc
    · rw [if_neg hc]
      refine List.Pairwise.cons ?_ (ih hys)
      intro z hz
      rcases mem_insertDesc.mp hz with hz | hz
      · subst hz; exact le_of_not_le hc
      · exact hy z hz

theorem pairwise_sortTsDesc (l : List TronAddressInfo) :
    (sortTsDesc l).Pairwise tsDesc := by
  induction l with
  | nil => simp [sortTsDesc]
  | cons x xs ih => exact pairwise_insertDesc ih

theorem evictIfFull_sublist (c : TTLState) : List.Sublist (evictIfFull c) c := by
  unfold evictIfFull
  split
  · exact List.tail_sublist c
  · exact List.Sublist.refl c

theorem cacheGet_append_fresh (t2 : Nat) (l : TTLState) (k : String)
    (v : AccountInfo) (t1 : Nat) (hl : ∀ e ∈ l, e.key ≠ k)
    (h : t2 < t1 + cacheTTL) :
    cacheGet t2 (l ++ [⟨k, v, t1⟩]) k = some v := by
  unfold cacheGet cacheExpire
  rw [List.filter_append, List.find?_append]
  have hleft : ((l.filter (fun e => decide (t2 < e.insertedAt + cacheTTL))).find?
      (fun e => decide (e.key = k))) = none := by
    apply List.find?_eq_none.mpr
    intro e he
    have := hl e (List.mem_of_mem_filter he)
    simp [this]
  rw [hleft]
  simp [List.filter, List.find?, h]

theorem cacheGet_cacheSet_same (t1 t2 : Nat) (c : TTLState) (k : String)
    (v : AccountInfo) (h : t2 < t1 + cacheTTL) :
    cacheGet t2 (cacheSet t1 c k v) k = some v := by
  unfold cacheSet
  apply cacheGet_append_fresh _ _ _ _ _ _ h
  intro e he
  have he' : e ∈ (cacheExpire t1 c).filter (fun e => e.key ≠ k) :=
    (evictIfFull_sublist _).subset he
  have := (List.mem_filter.mp he').2
  simpa using this

theorem cacheGet_some_fresh (now : Nat) (c : TTLState) (k : String) (v : AccountInfo)
    (h : cacheGet now c k = some v) :
    ∃ e, e ∈ c ∧ e.key = k ∧ e.value = v ∧ now - e.insertedAt < cacheTTL := by
  unfold cacheGet at h
  obtain ⟨e, hfind, hval⟩ := Option.map_eq_some'.mp h
  have hkey : e.key = k := by
    have := List.find?_some hfind
    simpa using this
  have hmem : e ∈ cacheExpire now c := List.mem_of_find?_eq_some hfind
  have hmem' := List.mem_filter.mp hmem
  refine ⟨e, hmem'.1, hkey, hval, ?_⟩
  have := hmem'.2
  simp only [decide_eq_true_eq] at this
  unfold cacheTTL at this ⊢
  omega

theorem applyCacheOp_length_le (c : TTLState) (op : CacheOp)
    (h : c.length ≤ cacheMaxsize) : (applyCacheOp c op).length ≤ cacheMaxsize := by
  cases op with
  | get now k =>
    calc (cacheExpire now c).length ≤ c.length := List.length_filter_le _ _
      _ ≤ cacheMaxsize := h
  | set now k v =>
    show (cacheSet now c k v).length ≤ cacheMaxsize
    unfold cacheSet
    rw [List.length_append]
    have h1 : ((cacheExpire now c).filter (fun e => e.key ≠ k)).length ≤ c.length :=
      le_trans (List.length_filter_le _ _) (List.length_filter_le _ _)
    unfold evictIfFull cacheMaxsize at *
    simp only [List.length_singleton]
    split
    · rw [List.length_tail]
      omega
    · omega

theorem runCacheOps_length_le (ops : List CacheOp) :
    (runCacheOps ops).length ≤ cacheMaxsize := by
  suffices h : ∀ c : TTLState, c.length ≤ cacheMaxsize →
      (ops.foldl applyCacheOp c).length ≤ cacheMaxsize by
    exact h [] (by simp [cacheMaxsize])
  induction ops with
  | nil => intro c hc; simpa
  | cons op ops ih =>
    intro c hc
    exact ih _ (applyCacheOp_length_le c op hc)

theorem persistAndRespond_cache (env : HandlerEnv) (info : AccountInfo)
    (c' : TTLState) (f : Bool) : (persistAndRespond env info c' f).cache = c' := by
  unfold persistAndRespond
  cases env.commitRes with
  | error e => rfl
  | ok u =>
    cases env.refreshRes with
    | error e => rfl
    | ok u' => rfl

theorem persistAndRespond_fetchCalled (env : HandlerEnv) (info : AccountInfo)
    (c' : TTLState) (f : Bool) : (persistAndRespond env info c' f).fetchCalled = f := by
  unfold persistAndRespond
  cases env.commitRes with
  | error e => rfl
  | ok u =>
    cases env.refreshRes with
    | error e => rfl
    | ok u' => rfl

theorem persistAndRespond_cases (env : HandlerEnv) (info : AccountInfo)
    (c' : TTLState) (f : Bool) :
    (persistAndRespond env info c' f =
        ⟨.ok env.address info.bandwidth info.energy info.balance, c',
          env.db ++ [mkRecord env info], f⟩ ∧
      env.commitRes = .ok () ∧ env.refreshRes = .ok ()) ∨
    (∃ e, env.commitRes = .error e ∧
      persistAndRespond env info c' f =
        ⟨.httpError 500 (exceptionDetail e), c', env.db, f⟩) ∨
    (env.commitRes = .ok () ∧ ∃ e, env.refreshRes = .error e ∧
      persistAndRespond env info c' f =
        ⟨.httpError 500 (exceptionDetail e), c', env.db ++ [mkRecord env info], f⟩) := by
  unfold persistAndRespond
  cases hc : env.commitRes with
  | error e => exact Or.inr (Or.inl ⟨e, rfl, rfl⟩)
  | ok u =>
    cases u
    cases hr : env.refreshRes with
    | error e => exact Or.inr (Or.inr ⟨rfl, e, rfl, rfl⟩)
    | ok u' =>
      cases u'
      exact Or.inl ⟨rfl, rfl, rfl⟩

theorem retryGo_attempts_le (f : Nat → Except PyError α) :
    ∀ (fuel idx : Nat) (ws : List Nat), (retryGo f fuel idx ws).attempts ≤ idx + fuel := by
  intro fuel
  induction fuel with
  | zero => intro idx ws; simp [retryGo]
  | succ n ih =>
    intro idx ws
    cases hf : f idx with
    | ok v => simp [retryGo, hf]
    | error e =>
      simp only [retryGo, hf]
      by_cases hb : (e.isNetwork && n != 0) = true
      · rw [if_pos hb]
        calc (retryGo f n (idx + 1) (ws ++ [waitExponential (idx + 1)])).attempts
            ≤ (idx + 1) + n := ih (idx + 1) _
          _ ≤ idx + (n + 1) := by omega
      · rw [if_neg hb]
        show idx + 1 ≤ idx + (n + 1)
        omega

/-! Claim theorems. -/

/-- C1: for every request environment in which the validator returns false,
`handleLookup` responds with the 400 `HTTPException` whose detail is
`"Invalid Tron address"`, makes no upstream fetch call, and leaves both the
cache and the persistence store exactly as they were. -/
theorem handleLookup_invalid_address (env : HandlerEnv)
    (h : env.validateRes = .ok false) :
    handleLookup env =
      ⟨.httpError 400 "Invalid Tron address", env.cache, env.db, false⟩ := by
  simp [handleLookup, h]

/-- Witness for C1 at the concrete environment `envInvalid`. -/
theorem handleLookup_invalid_address_witness :
    handleLookup envInvalid =
      ⟨.httpError 400 "Invalid Tron address", envInvalid.cache, envInvalid.db, false⟩ :=
  handleLookup_invalid_address envInvalid rfl

/-- C2: the retry policy makes at most 3 attempts, retries only
network-class errors, sleeps the exponential backoff delays 1, 2, 4, ...
capped at 10 between attempts, succeeds after exactly 3 attempts when the
first two attempts fail with network errors, and after 3 all-failing
attempts surfaces the last network error. -/
theorem retryCall_policy :
    (∀ (f : Nat → Except PyError Nat) (e₀ e₁ : PyError) (v : Nat),
      f 0 = .error e₀ → e₀.isNetwork = true →
      f 1 = .error e₁ → e₁.isNetwork = true →
      f 2 = .ok v → retryCall f = ⟨.ok v, 3, [1, 2]⟩) ∧
    (∀ (f : Nat → Except PyError Nat) (es : Nat → PyError),
      (∀ n, f n = .error (es n)) → (∀ n, (es n).isNetwork = true) →
      retryCall f = ⟨.error (es 2), 3, [1, 2]⟩) ∧
    (∀ (f : Nat → Except PyError Nat) (e : PyError),
      f 0 = .error e → e.isNetwork = false → retryCall f = ⟨.error e, 1, []⟩) ∧
    (∀ f : Nat → Except PyError Nat, (retryCall f).attempts ≤ 3) ∧
    (waitExponential 1 = 1 ∧
      (∀ n, waitExponential (n + 2) = min 10 (2 * 2 ^ n)) ∧
      (∀ n, 1 ≤ waitExponential n ∧ waitExponential n ≤ 10)) := by
  refine ⟨?_, ?_, ?_, ?_, ?_, ?_, ?_⟩
  · intro f e₀ e₁ v h0 hn0 h1 hn1 h2
    simp [retryCall, retryGo, h0, h1, h2, hn0, hn1, waitExponential]
  · intro f es hf hn
    simp [retryCall, retryGo, hf 0, hf 1, hf 2, hn 0, hn 1, hn 2, waitExponential]
  · intro f e h0 hn
    simp [retryCall, retryGo, h0, hn]
  · intro f
    simpa using retryGo_attempts_le f 3 0 []
  · decide
  · intro n
    have hp : 0 < 2 ^ n := pow_pos (by norm_num) n
    show max 1 (min 10 (2 ^ (n + 2 - 1))) = min 10 (2 * 2 ^ n)
    have : n + 2 - 1 = n + 1 := by omega
    rw [this, pow_succ]
    omega
  · intro n
    have hp : 0 < 2 ^ (n - 1) := pow_pos (by norm_num) (n - 1)
    unfold waitExponential
    omega

/-- Witness for C2 at three concrete stubs: fail-twice-then-succeed,
always-fail, and an application-level failure. -/
theorem retryCall_policy_witness :
    retryCall stubTwoFailures = ⟨.ok 7, 3, [1, 2]⟩ ∧
    retryCall stubAlwaysFails = ⟨.error (.connectionError "net down"), 3, [1, 2]⟩ ∧
    retryCall stubNonNetwork = ⟨.error (.valueError "bad input"), 1, []⟩ :=
  ⟨retryCall_policy.1 stubTwoFailures (.connectionError "net down")
      (.connectionError "net down") 7 rfl rfl rfl rfl rfl,
    retryCall_policy.2.1 stubAlwaysFails (fun _ => .connectionError "net down")
      (fun _ => rfl) (fun _ => rfl),
    retryCall_policy.2.2.1 stubNonNetwork (.valueError "bad input") rfl rfl⟩

/-- C7: when validation passes and both upstream reads succeed,
`get_address_info` returns bandwidth equal to the `NetLimit` field, energy
equal to the `EnergyLimit` field — each defaulting to 0 when the field is
unset — together with the account balance. -/
theorem get_address_info_resource_fields (env : FetchEnv) (r : ResourceMap)
    (b : Rat) (hv : env.validateRes = .ok true) (hr : env.resourceRes = .ok r)
    (hb : env.balanceRes = .ok b) :
    (get_address_info_body env).result =
      .ok ⟨r.NetLimit.getD 0, r.EnergyLimit.getD 0, b⟩ := by
  simp [get_address_info_body, hv, hr, hb]

/-- Witness for C7 at a response with both resource limits unset. -/
theorem get_address_info_resource_fields_witness :
    (get_address_info_body fenvNoLimits).result =
      .ok ⟨(none : Option Int).getD 0, (none : Option Int).getD 0, sampleBalance⟩ :=
  get_address_info_resource_fields fenvNoLimits ⟨none, none⟩ sampleBalance rfl rfl rfl

/-- C8: when the re-validation inside `get_address_info` reports the
address invalid on the first attempt, the retried call fails immediately
with the invalid-input `ValueError`, makes exactly one attempt with no
backoff sleeps (the error is not retried), and issues neither upstream read
call. -/
theorem get_address_info_fail_fast (envs : Nat → FetchEnv)
    (h : (envs 0).validateRes = .ok false) :
    get_address_info_retried envs =
      ⟨.error (.valueError "Invalid Tron address"), 1, []⟩ ∧
    (get_address_info_body (envs 0)).resourceCalled = false ∧
    (get_address_info_body (envs 0)).balanceCalled = false := by
  refine ⟨?_, ?_, ?_⟩ <;>
    simp [get_address_info_retried, retryCall, retryGo, get_address_info_body, h,
      PyError.isNetwork]

/-- Witness for C8 at the concrete per-attempt outcomes `fenvsInvalid`. -/
theorem get_address_info_fail_fast_witness :
    get_address_info_retried fenvsInvalid =
      ⟨.error (.valueError "Invalid Tron address"), 1, []⟩ ∧
    (get_address_info_body (fenvsInvalid 0)).resourceCalled = false ∧
    (get_address_info_body (fenvsInvalid 0)).balanceCalled = false :=
  get_address_info_fail_fast fenvsInvalid rfl

/-- C4: for a store of `N` records and any page `k ≥ 1` with page size
`p ∈ [1, 100]`, `GET /recent_requests` reports `total = N` and returns
exactly `min(p, max(0, N - (k-1)*p))` records, namely the slice of the
newest-first history at offset `(k-1)*p` with limit `p`, which is itself
sorted by timestamp descending. -/
theorem recent_requests_pagination (records : List TronAddressInfo) (k p : Nat)
    (hk : 1 ≤ k) (hp1 : 1 ≤ p) (hp2 : p ≤ 100) :
    (get_recent_requests records k p).total = records.length ∧
    ((get_recent_requests records k p).data.length : Int) =
      min (p : Int) (max 0 ((records.length : Int) - ((k : Int) - 1) * (p : Int))) ∧
    (get_recent_requests records k p).data =
      ((sortTsDesc records).drop ((k - 1) * p)).take p ∧
    ((get_recent_requests records k p).data).Pairwise tsDesc := by
  refine ⟨rfl, ?_, rfl, ?_⟩
  · have hlen : (get_recent_requests records k p).data.length
        = min p (records.length - (k - 1) * p) := by
      simp [get_recent_requests, List.length_take, List.length_drop, length_sortTsDesc]
    have hcast : ((k : Int) - 1) * (p : Int) = (((k - 1) * p : Nat) : Int) := by
      rw [Nat.cast_mul, Nat.cast_sub hk, Nat.cast_one]
    rw [hlen, hcast]
    omega
  · exact (pairwise_sortTsDesc records).sublist
      ((List.take_sublist _ _).trans (List.drop_sublist _ _))

/-- Witness for C4: three records, second page of size two. -/
theorem recent_requests_pagination_witness :
    (get_recent_requests sampleRecords 2 2).total = sampleRecords.length ∧
    ((get_recent_requests sampleRecords 2 2).data.length : Int) =
      min ((2 : Nat) : Int)
        (max 0 ((sampleRecords.length : Int) - (((2 : Nat) : Int) - 1) * ((2 : Nat) : Int))) ∧
    (get_recent_requests sampleRecords 2 2).data =
      ((sortTsDesc sampleRecords).drop ((2 - 1) * 2)).take 2 ∧
    ((get_recent_requests sampleRecords 2 2).data).Pairwise tsDesc :=
  recent_requests_pagination sampleRecords 2 2 (by decide) (by decide) (by decide)

/-- C9: after any sequence of timestamped get/set operations starting from
the empty cache, the cache holds at most 100 entries, and any value a
lookup returns at time `now` comes from an entry whose age at `now` is
below the 5-minute TTL. -/
theorem cache_bounded_and_fresh (ops : List CacheOp) (now : Nat) (k : String) :
    (runCacheOps ops).length ≤ cacheMaxsize ∧
    ∀ v, cacheGet now (runCacheOps ops) k = some v →
      ∃ e, e ∈ runCacheOps ops ∧ e.key = k ∧ e.value = v ∧
        now - e.insertedAt < cacheTTL := by
  refine ⟨runCacheOps_length_le ops, ?_⟩
  intro v hv
  exact cacheGet_some_fresh now (runCacheOps ops) k v hv

/-- Witness for C9: one insertion at time 0, looked up at time 10. -/
theorem cache_bounded_and_fresh_witness :
    (runCacheOps opsSample).length ≤ cacheMaxsize ∧
    ∃ e, e ∈ runCacheOps opsSample ∧ e.key = "a" ∧ e.value = sampleInfo ∧
      (10 : Nat) - e.insertedAt < cacheTTL :=
  ⟨(cache_bounded_and_fresh opsSample 10 "a").1,
    (cache_bounded_and_fresh opsSample 10 "a").2 sampleInfo rfl⟩

/-- C10: an omitted query parameter of `GET /recent_requests` takes its
declared default (`page = 1`, `page_size = 10`); a supplied `page < 1` or
`page_size` outside `[1, 100]` is rejected by parameter validation before
the handler body runs, while in-range values are passed through. -/
theorem recent_requests_param_validation :
    parseRecentRequestsParams none none = .ok (1, 10) ∧
    (∀ s : Int, 1 ≤ s → s ≤ 100 → parseRecentRequestsParams none (some s) = .ok (1, s)) ∧
    (∀ p : Int, 1 ≤ p → parseRecentRequestsParams (some p) none = .ok (p, 10)) ∧
    (∀ p s : Int, 1 ≤ p → 1 ≤ s → s ≤ 100 →
      parseRecentRequestsParams (some p) (some s) = .ok (p, s)) ∧
    (∀ (p : Int) (s? : Option Int), p < 1 →
      (parseRecentRequestsParams (some p) s?).isOk = false) ∧
    (∀ (p? : Option Int) (s : Int), s < 1 ∨ 100 < s →
      (parseRecentRequestsParams p? (some s)).isOk = false) := by
  refine ⟨by decide, ?_, ?_, ?_, ?_, ?_⟩
  · intro s h1 h2
    simp only [parseRecentRequestsParams, Option.getD]
    split_ifs <;> first | rfl | omega
  · intro p h1
    simp only [parseRecentRequestsParams, Option.getD]
    split_ifs <;> first | rfl | omega
  · intro p s h1 h2 h3
    simp only [parseRecentRequestsParams, Option.getD]
    split_ifs <;> first | rfl | omega
  · intro p s? h1
    simp only [parseRecentRequestsParams, Option.getD]
    split_ifs
    all_goals first | omega | rfl
  · intro p? s h1
    simp only [parseRecentRequestsParams, Option.getD]
    split_ifs <;> first | rfl | omega

/-- Witness for C10: defaults applied, in-range passthrough, and both
rejection directions at concrete parameter values. -/
theorem recent_requests_param_validation_witness :
    parseRecentRequestsParams none (some 50) = .ok (1, 50) ∧
    parseRecentRequestsParams (some 3) none = .ok (3, 10) ∧
    parseRecentRequestsParams (some 2) (some 99) = .ok (2, 99) ∧
    (parseRecentRequestsParams (some 0) (some 10)).isOk = false ∧
    (parseRecentRequestsParams (some 1) (some 101)).isOk = false :=
  ⟨recent_requests_param_validation.2.1 50 (by decide) (by decide),
    recent_requests_param_validation.2.2.1 3 (by decide),
    recent_requests_param_validation.2.2.2.1 2 99 (by decide) (by decide) (by decide),
    recent_requests_param_validation.2.2.2.2.1 0 (some 10) (by decide),
    recent_requests_param_validation.2.2.2.2.2 (some 1) 101 (Or.inr (by decide))⟩

/-- C3: a lookup that misses the cache calls the upstream fetch and, on
success, writes the result into the cache; any subsequent lookup of the
same address over that cache within the TTL window hits the cache and makes
no upstream fetch call. -/
theorem cache_hit_avoids_refetch :
    (∀ (env env2 : HandlerEnv) (info : AccountInfo),
      env.validateRes = .ok true →
      cacheGet env.now env.cache env.address = none →
      env.fetchRes = .ok info →
      env2.address = env.address →
      env2.cache = (handleLookup env).cache →
      env2.validateRes = .ok true →
      env2.now < env.now + cacheTTL →
      (handleLookup env2).fetchCalled = false ∧
      cacheGet env2.now env2.cache env2.address = some info) ∧
    (∀ (env : HandlerEnv) (info : AccountInfo),
      env.validateRes = .ok true →
      cacheGet env.now env.cache env.address = none →
      env.fetchRes = .ok info →
      (handleLookup env).fetchCalled = true ∧
      (handleLookup env).cache = cacheSet env.now env.cache env.address info) := by
  have hmiss : ∀ (env : HandlerEnv) (info : AccountInfo),
      env.validateRes = .ok true →
      cacheGet env.now env.cache env.address = none →
      env.fetchRes = .ok info →
      (handleLookup env).fetchCalled = true ∧
      (handleLookup env).cache = cacheSet env.now env.cache env.address info := by
    intro env info hv hc hf
    simp only [handleLookup, hv, hc, hf]
    exact ⟨persistAndRespond_fetchCalled env info _ true,
      persistAndRespond_cache env info _ true⟩
  refine ⟨?_, hmiss⟩
  intro env env2 info hv hc hf ha hcache hv2 ht
  have hget : cacheGet env2.now env2.cache env2.address = some info := by
    rw [hcache, (hmiss env info hv hc hf).2, ha]
    exact cacheGet_cacheSet_same env.now env2.now env.cache env.address info ht
  refine ⟨?_, hget⟩
  simp only [handleLookup, hv2, hget]
  exact persistAndRespond_fetchCalled env2 info _ false

/-- Witness for C3 at the two concrete requests `envMiss` and `envHit`. -/
theorem cache_hit_avoids_refetch_witness :
    (handleLookup envHit).fetchCalled = false ∧
    cacheGet envHit.now envHit.cache envHit.address = some sampleInfo ∧
    (handleLookup envMiss).fetchCalled = true ∧
    (handleLookup envMiss).cache =
      cacheSet envMiss.now envMiss.cache envMiss.address sampleInfo := by
  obtain ⟨h1, h2⟩ := cache_hit_avoids_refetch.1 envMiss envHit sampleInfo
    rfl rfl rfl rfl rfl rfl (by decide)
  obtain ⟨h3, h4⟩ := cache_hit_avoids_refetch.2 envMiss sampleInfo rfl rfl rfl
  exact ⟨h1, h2, h3, h4⟩

/-- C5 counterexample: in `envRefreshFail` the commit succeeds and the
post-commit `db.refresh` round trip fails, so the handler returns a 500
error while the freshly committed record remains in the store — an error
response together with a persisted record for that same attempt. -/
theorem refresh_failure_partial_success :
    (handleLookup envRefreshFail).resp =
      .httpError 500 "Internal server error: lost db connection during refresh" ∧
    (handleLookup envRefreshFail).db =
      envRefreshFail.db ++ [mkRecord envRefreshFail sampleInfo] ∧
    (handleLookup envRefreshFail).db ≠ envRefreshFail.db := by
  refine ⟨rfl, rfl, ?_⟩
  decide

/-- C5 (amended): every request ends in one of three states — the full
pipeline completes and exactly the one new record is persisted; or an error
is returned and nothing is persisted; or the commit succeeded and only the
post-commit refresh failed, in which case an error is returned while the
record remains persisted. -/
theorem handleLookup_persistence (env : HandlerEnv) :
    (∃ info : AccountInfo,
      (handleLookup env).resp = .ok env.address info.bandwidth info.energy info.balance ∧
      (handleLookup env).db = env.db ++ [mkRecord env info] ∧
      env.commitRes = .ok () ∧ env.refreshRes = .ok ()) ∨
    ((handleLookup env).db = env.db ∧
      ∀ (a : String) (b e : Int) (bal : Rat),
        (handleLookup env).resp ≠ .ok a b e bal) ∨
    (env.commitRes = .ok () ∧
      (∃ er, env.refreshRes = .error er ∧
        (handleLookup env).resp = .httpError 500 (exceptionDetail er)) ∧
      ∃ info : AccountInfo, (handleLookup env).db = env.db ++ [mkRecord env info]) := by
  cases hv : env.validateRes with
  | error e =>
    right; left
    simp only [handleLookup, hv]
    exact ⟨by trivial, by intro a b e' bal h; exact HandlerResponse.noConfusion h⟩
  | ok bv =>
    cases bv with
    | false =>
      right; left
      simp only [handleLookup, hv]
      exact ⟨by trivial, by intro a b e' bal h; exact HandlerResponse.noConfusion h⟩
    | true =>
      cases hcg : cacheGet env.now env.cache env.address with
      | some info =>
        simp only [handleLookup, hv, hcg]
        rcases persistAndRespond_cases env info env.cache false with
          ⟨heq, hcm, hrf⟩ | ⟨e, hcm, heq⟩ | ⟨hcm, e, hrf, heq⟩
        · left; exact ⟨info, by rw [heq], by rw [heq], hcm, hrf⟩
        · right; left
          refine ⟨by rw [heq], ?_⟩
          intro a b e' bal h
          rw [heq] at h
          exact HandlerResponse.noConfusion h
        · right; right
          exact ⟨hcm, ⟨e, hrf, by rw [heq]⟩, info, by rw [heq]⟩
      | none =>
        cases hf : env.fetchRes with
        | error e =>
          right; left
          simp only [handleLookup, hv, hcg, hf]
          exact ⟨by trivial, by intro a b e' bal h; exact HandlerResponse.noConfusion h⟩
        | ok info =>
          simp only [handleLookup, hv, hcg, hf]
          rcases persistAndRespond_cases env info
              (cacheSet env.now env.cache env.address info) true with
            ⟨heq, hcm, hrf⟩ | ⟨e, hcm, heq⟩ | ⟨hcm, e, hrf, heq⟩
          · left; exact ⟨info, by rw [heq], by rw [heq], hcm, hrf⟩
          · right; left
            refine ⟨by rw [heq], ?_⟩
            intro a b e' bal h
            rw [heq] at h
            exact HandlerResponse.noConfusion h
          · right; right
            exact ⟨hcm, ⟨e, hrf, by rw [heq]⟩, info, by rw [heq]⟩

/-- Witness for C5 (amended) at the concrete environment `envRefreshFail`. -/
theorem handleLookup_persistence_witness :
    (∃ info : AccountInfo,
      (handleLookup envRefreshFail).resp =
        .ok envRefreshFail.address info.bandwidth info.energy info.balance ∧
      (handleLookup envRefreshFail).db =
        envRefreshFail.db ++ [mkRecord envRefreshFail info] ∧
      envRefreshFail.commitRes = .ok () ∧ envRefreshFail.refreshRes = .ok ()) ∨
    ((handleLookup envRefreshFail).db = envRefreshFail.db ∧
      ∀ (a : String) (b e : Int) (bal : Rat),
        (handleLookup envRefreshFail).resp ≠ .ok a b e bal) ∨
    (envRefreshFail.commitRes = .ok () ∧
      (∃ er, envRefreshFail.refreshRes = .error er ∧
        (handleLookup envRefreshFail).resp = .httpError 500 (exceptionDetail er)) ∧
      ∃ info : AccountInfo,
        (handleLookup envRefreshFail).db =
          envRefreshFail.db ++ [mkRecord envRefreshFail info]) :=
  handleLookup_persistence envRefreshFail

/-- C6 counterexample: in `envValNetErr` the network error from the initial
validator call is raised before the `try` block, so it escapes the endpoint
uncaught (FastAPI then produces a generic 500 without the message) rather
than becoming the 500 `HTTPException` carrying `"Network error: conn
down"`. -/
theorem validator_network_error_uncaught :
    (handleLookup envValNetErr).resp = .uncaught (.connectionError "conn down") ∧
    (handleLookup envValNetErr).resp ≠
      .httpError 500 ("Network error: " ++ "conn down") := by
  refine ⟨rfl, ?_⟩
  decide

/-- C6 (amended): a network-class error from the upstream fetch inside the
`try` block is answered with a 500 `HTTPException` whose detail carries the
underlying message, while a network-class error from the initial validator
call escapes the endpoint uncaught. -/
theorem network_error_surfacing (env : HandlerEnv) (e : PyError)
    (hn : e.isNetwork = true) :
    (env.validateRes = .ok true →
      cacheGet env.now env.cache env.address = none →
      env.fetchRes = .error e →
      (handleLookup env).resp = .httpError 500 ("Network error: " ++ e.message)) ∧
    (env.validateRes = .error e → (handleLookup env).resp = .uncaught e) := by
  constructor
  · intro hv hc hf
    simp only [handleLookup, hv, hc, hf]
    simp [exceptionDetail, hn]
  · intro hv
    simp [handleLookup, hv]

/-- Witness for C6 (amended) at the concrete environments `envFetchNetErr`
and `envValNetErr`. -/
theorem network_error_surfacing_witness :
    (handleLookup envFetchNetErr).resp =
      .httpError 500 ("Network error: " ++ PyError.message (.connectionError "api down")) ∧
    (handleLookup envValNetErr).resp = .uncaught (.connectionError "conn down") :=
  ⟨(network_error_surfacing envFetchNetErr (.connectionError "api down") rfl).1 rfl rfl rfl,
    (network_error_surfacing envValNetErr (.connectionError "conn down") rfl).2 rfl⟩
